import Mathlib

/-!
Verification of the workspace/layout configuration and the file-drop and
AI-tool handlers of the sqlrooms-testing application.

The embedding follows `src/src/store.tsx` (final revision, the one that
defines `WORKSPACES`, `setCurrentWorkspace`, the two-panel registry and
the `echo` AI tool), `src/src/DataView.tsx` / `src/src/DataViewV2.tsx`
(the `onDrop` handlers) and `src/src/WorkspaceSwitcher.tsx`.

TypeScript types are erased at runtime, so workspace identifiers are
modelled as strings and the `WORKSPACES[workspace]` lookup as an
association-list lookup returning `Option` (`undefined` becomes `none`).
Component and icon references are modelled by their source names; the
`onDrop` handlers are modelled as event traces parameterised by the
framework-provided `convertToValidColumnOrTableName` and by the outcome
of `connector.loadFile` on each file.
-/

namespace SqlroomsTesting

/-- Split axis of a mosaic branch node (`direction: "row" | "column"`). -/
inductive Direction where
  | row
  | column
deriving DecidableEq, Repr

/-- A mosaic layout node: either a leaf holding a panel identifier, or a
branch with a direction, two children and the percentage of space given
to the first child (`MosaicNode` of the layout schema used in
`store.tsx`). -/
inductive MosaicNode where
  | leaf (id : String)
  | branch (direction : Direction) (first second : MosaicNode)
      (splitPercentage : Int)
deriving DecidableEq, Repr

/-- A layout configuration value (`LayoutConfig`): the literal objects in
`store.tsx` always have `type: "mosaic"` and a `nodes` tree. -/
structure LayoutConfig where
  type : String
  nodes : MosaicNode
deriving DecidableEq, Repr

/-- `dataWorkspace` from `store.tsx` lines 367-375. -/
def dataWorkspace : LayoutConfig :=
  { type := "mosaic",
    nodes := .branch .row (.leaf "file-upload") (.leaf "data-connectors") 40 }

/-- `queryWorkspace` from `store.tsx` lines 377-385. -/
def queryWorkspace : LayoutConfig :=
  { type := "mosaic",
    nodes := .branch .row (.leaf "data-view") (.leaf "ai-view") 30 }

/-- `chartWorkspace` from `store.tsx` lines 387-390: a single leaf. -/
def chartWorkspace : LayoutConfig :=
  { type := "mosaic", nodes := .leaf "chart-view" }

/-- The static workspace table `WORKSPACES` from `store.tsx` lines 392-396. -/
def WORKSPACES : List (String × LayoutConfig) :=
  [("data", dataWorkspace), ("query", queryWorkspace), ("chart", chartWorkspace)]

/-- The runtime meaning of `WORKSPACES[workspace]` for an arbitrary string
key: the bound layout when the key is present, `none` (TypeScript
`undefined`) otherwise. -/
def lookupWorkspace (w : String) : Option LayoutConfig :=
  (WORKSPACES.find? (fun p => p.1 == w)).map Prod.snd

/-- Placement category of a panel (`placement: "sidebar" | "main"`). -/
inductive Placement where
  | sidebar
  | main
deriving DecidableEq, Repr

/-- A panel descriptor as registered in `room.panels`: display title,
optional icon reference, component reference (by source name) and
placement.  `icon` is `Option` because the TypeScript field is optional
and the `ai-view` entry omits it. -/
structure Panel where
  title : String
  icon : Option String
  component : String
  placement : Placement
deriving DecidableEq, Repr

/-- The panel registry passed to `createRoomShellSlice` in `store.tsx`
lines 413-427: `data-view` (with `DatabaseIcon`) and `ai-view` (no icon). -/
def panels : List (String × Panel) :=
  [("data-view",
    { title := "Data View", icon := some "DatabaseIcon",
      component := "DataViewAccordion", placement := .main }),
   ("ai-view",
    { title := "Main View", icon := none,
      component := "AiView", placement := .main })]

/-- The identifiers under which panel descriptors are registered. -/
def panelIds : List String := panels.map Prod.fst

/-- All panel identifiers appearing at the leaves of a mosaic tree. -/
def MosaicNode.leaves : MosaicNode → List String
  | .leaf id => [id]
  | .branch _ f s _ => f.leaves ++ s.leaves

/-- Every branch node's split percentage lies in [0, 100]. -/
def MosaicNode.splitsInRange : MosaicNode → Bool
  | .leaf _ => true
  | .branch _ f s p =>
      decide (0 ≤ p) && decide (p ≤ 100) && f.splitsInRange && s.splitsInRange

/-- The part of the room store state that the code in this repository
reads or writes: the custom workspace fields added in `RoomState`, the
active layout held by the shell slice (`Option` because an unguarded
lookup can store `undefined`), and the panel registry. -/
structure RoomState where
  currentWorkspace : String
  layout : Option LayoutConfig
  panels : List (String × Panel)
deriving DecidableEq, Repr

/-- The startup layout passed as `config.layout`: `WORKSPACES.query`
(`store.tsx` line 407). -/
def initialConfigLayout : LayoutConfig := queryWorkspace

/-- The initial store state built by `createRoomStore`:
`currentWorkspace: "query"`, layout `WORKSPACES.query`, the static panel
registry. -/
def initialState : RoomState :=
  { currentWorkspace := "query",
    layout := some initialConfigLayout,
    panels := panels }

/-- `setCurrentWorkspace` (`store.tsx` lines 470-480): store the new
identifier, look the layout up in `WORKSPACES` without any guard, and
hand the result to `layout.setLayout`, which replaces the whole layout
value. -/
def setCurrentWorkspace (workspace : String) (s : RoomState) : RoomState :=
  { s with
    currentWorkspace := workspace,
    layout := lookupWorkspace workspace }

/-- One step of the workspace-switching interface: a `setCurrentWorkspace`
call whose argument is one of the table's identifiers (the only calls the
UI makes). -/
inductive Step : RoomState → RoomState → Prop where
  | switch (w : String) (s : RoomState) (hw : (lookupWorkspace w).isSome) :
      Step s (setCurrentWorkspace w s)

/-- States reachable from the initial state by workspace switches. -/
inductive Reachable : RoomState → Prop where
  | init : Reachable initialState
  | step {s s' : RoomState} : Reachable s → Step s s' → Reachable s'

/-- The workspace identifiers hard-coded in the `WorkspaceSwitcher`
component (`WorkspaceSwitcher.tsx` lines 10-14). -/
def workspaceSwitcherIds : List String := ["data", "query", "chart"]

/-- Result payload of the `echo` AI tool (`llmResult` object). -/
structure EchoLlmResult where
  success : Bool
  details : String
deriving DecidableEq, Repr

/-- Return value of the `echo` tool's `execute` function. -/
structure EchoResult where
  llmResult : EchoLlmResult
deriving DecidableEq, Repr

/-- The `echo` tool's `execute` function (`store.tsx` lines 455-462):
always returns success with the input text echoed back. -/
def echoExecute (text : String) : EchoResult :=
  { llmResult := { success := true, details := "Echo: " ++ text } }

/-! The `onDrop` handlers of `DataView.tsx` and `DataViewV2.tsx` are
identical: a sequential for-loop that, per file, computes a table name
with `convertToValidColumnOrTableName`, awaits `connector.loadFile`, and
shows a success toast, or on failure an error toast; after the loop one
`refreshTableSchemas()` call.  We model the handler as the trace of
observable calls it makes, parameterised by the framework table-name
function `tname` and by the outcome of `loadFile` on each file
(`none` = success, `some err` = the raised error, stringified). -/

/-- One observable call made by the `onDrop` handler. -/
inductive DropEvent where
  | load (file : String) (tableName : String)
  | toast (variant : String) (title : String) (description : String)
  | refreshSchemas
deriving DecidableEq, Repr

/-- Is this event a `connector.loadFile` invocation? -/
def isLoadEvent : DropEvent → Bool
  | .load _ _ => true
  | _ => false

/-- Is this event a destructive-variant (error) toast? -/
def isErrorToast : DropEvent → Bool
  | .toast v _ _ => v == "destructive"
  | _ => false

/-- The file extensions of the `acceptedFormats` map passed to
`FileDropzone` in both drop handlers. -/
def supportedExtensions : List String := [".csv", ".tsv", ".parquet", ".json"]

/-- Whether a file name carries one of the supported extensions. -/
def hasSupportedExtension (file : String) : Bool :=
  supportedExtensions.any (fun ext => ext.data.isSuffixOf file.data)

/-- The trace of one iteration of the `onDrop` loop body on `file`:
the `loadFile` call, then either the success toast (description
`File <name> loaded as <tableName>`) or, when `loadFile` raises, the
caught error's toast (description `Error loading file <name>: <error>`). -/
def processFile (tname : String → String) (loadResult : String → Option String)
    (file : String) : List DropEvent :=
  match loadResult file with
  | none =>
      [DropEvent.load file (tname file),
       DropEvent.toast "default" "Table created"
         ("File " ++ file ++ " loaded as " ++ tname file)]
  | some err =>
      [DropEvent.load file (tname file),
       DropEvent.toast "destructive" "Error"
         ("Error loading file " ++ file ++ ": " ++ err)]

/-- The sequential `for (const file of files)` loop: the files are
processed one after another, each iteration's calls completing before the
next file's begin. -/
def processFiles (tname : String → String) (loadResult : String → Option String) :
    List String → List DropEvent
  | [] => []
  | f :: fs => processFile tname loadResult f ++ processFiles tname loadResult fs

/-- The whole `onDrop` handler: the loop over the dropped files, then a
single `refreshTableSchemas()` call. -/
def onDrop (tname : String → String) (loadResult : String → Option String)
    (files : List String) : List DropEvent :=
  processFiles tname loadResult files ++ [DropEvent.refreshSchemas]

end SqlroomsTesting

namespace SqlroomsTesting

/-- C1: switching to an identifier present in the workspace table replaces
the active layout value with exactly that workspace's stored tree (value
equality with the table entry), regardless of the previous state. -/
theorem setCurrentWorkspace_replaces_layout
    (w : String) (l : LayoutConfig) (hmem : (w, l) ∈ WORKSPACES)
    (s : RoomState) :
    (setCurrentWorkspace w s).layout = some l := by
  have hw : lookupWorkspace w = some l := by
    fin_cases hmem <;> rfl
  simp [setCurrentWorkspace, hw]

/-- Witness for C1 at the concrete workspace `"data"`. -/
theorem setCurrentWorkspace_replaces_layout_witness :
    (setCurrentWorkspace "data" initialState).layout = some dataWorkspace :=
  setCurrentWorkspace_replaces_layout "data" dataWorkspace (by decide)
    initialState

/-- C5: the workspace switch is a total synchronous function with no
error path.  For any input string it stores the unguarded table lookup as
the new layout; in particular when the identifier is absent from the
table it neither raises an error nor leaves the layout unchanged, but
stores `none` (the `undefined` produced by the lookup). -/
theorem setCurrentWorkspace_unguarded (w : String) (s : RoomState) :
    (setCurrentWorkspace w s).layout = lookupWorkspace w ∧
      (setCurrentWorkspace w s).currentWorkspace = w ∧
      (lookupWorkspace w = none → (setCurrentWorkspace w s).layout = none) := by
  refine ⟨rfl, rfl, fun h => ?_⟩
  simp [setCurrentWorkspace, h]

/-- Witness for C5 at the absent identifier `"nope"`. -/
theorem setCurrentWorkspace_unguarded_witness :
    (setCurrentWorkspace "nope" initialState).layout = none ∧
      (setCurrentWorkspace "nope" initialState).currentWorkspace = "nope" :=
  ⟨(setCurrentWorkspace_unguarded "nope" initialState).2.2 (by decide),
   (setCurrentWorkspace_unguarded "nope" initialState).2.1⟩

/-- C6: every branch node of every layout tree in the workspace table,
and of the startup layout, has its split percentage within [0, 100]. -/
theorem workspace_splits_in_range :
    WORKSPACES.all (fun p => p.2.nodes.splitsInRange) = true ∧
      initialConfigLayout.nodes.splitsInRange = true := by
  decide

/-- C8: the invariant "the active layout is exactly the workspace table
entry for `currentWorkspace`" holds in the initial state and is preserved
by every in-table `setCurrentWorkspace` call, hence in every reachable
state of the workspace-switching step relation. -/
theorem reachable_layout_matches_table {s : RoomState} (h : Reachable s) :
    s.layout = lookupWorkspace s.currentWorkspace := by
  induction h with
  | init => rfl
  | step _ hstep ih =>
      cases hstep with
      | switch w s hw => rfl

/-- Witness for C8 at the initial state. -/
theorem reachable_layout_matches_table_witness :
    initialState.layout = lookupWorkspace initialState.currentWorkspace :=
  reachable_layout_matches_table Reachable.init

/-- C9: every identifier the `WorkspaceSwitcher` UI can pass to
`setCurrentWorkspace` is a key of the workspace table, so the unguarded
lookup never misses: from any state, switching to any of the switcher's
identifiers yields a defined (`some`) layout. -/
theorem switcher_ids_never_miss (s : RoomState) :
    workspaceSwitcherIds.all
        (fun id => (lookupWorkspace id).isSome) = true ∧
      workspaceSwitcherIds.all
        (fun id => ((setCurrentWorkspace id s).layout).isSome) = true := by
  constructor
  · decide
  · simp only [setCurrentWorkspace]
    decide

/-- Witness for C9 at the initial state. -/
theorem switcher_ids_never_miss_witness :
    workspaceSwitcherIds.all
        (fun id => (lookupWorkspace id).isSome) = true ∧
      workspaceSwitcherIds.all
        (fun id => ((setCurrentWorkspace id initialState).layout).isSome)
        = true :=
  switcher_ids_never_miss initialState

/-- C2 counterexample: the claim fails at the `data` workspace: its leaf
`"file-upload"` has no registered panel descriptor (and likewise
`"data-connectors"` and the `chart` workspace's `"chart-view"`). -/
theorem dataWorkspace_leaf_unregistered :
    ("data", dataWorkspace) ∈ WORKSPACES ∧
      "file-upload" ∈ dataWorkspace.nodes.leaves ∧
      "file-upload" ∉ panelIds := by
  decide

/-- C2 amended: only the `query` workspace's layout tree (which is also
the startup layout) has all of its leaves registered in the panel
registry; the `data` and `chart` workspaces each contain at least one
leaf identifier with no registered panel descriptor. -/
theorem workspace_leaves_registration :
    queryWorkspace.nodes.leaves.all (fun id => panelIds.contains id) = true ∧
      dataWorkspace.nodes.leaves.any (fun id => !(panelIds.contains id)) = true ∧
      chartWorkspace.nodes.leaves.any (fun id => !(panelIds.contains id)) = true := by
  decide

/-- C7 counterexample: the `ai-view` panel descriptor is registered but
carries no icon reference, so not every descriptor has one. -/
theorem aiView_panel_lacks_icon :
    ((panels.find? (fun p => p.1 == "ai-view")).map (fun p => p.2.icon))
      = some none := by
  decide

/-- C7 amended: every registered panel descriptor has a unique string
identifier, a display title, a component reference and a placement drawn
from the enumeration {sidebar, main}; the `data-view` descriptor carries
an icon reference while `ai-view` does not; and the registry is static:
no step of the store's interface modifies it. -/
theorem panels_registry_spec :
    (panels.map Prod.fst).Nodup ∧
      panels.all (fun p => !(p.2.title == "")) = true ∧
      panels.all (fun p => !(p.2.component == "")) = true ∧
      panels.all (fun p =>
        (p.2.placement == Placement.sidebar
          || p.2.placement == Placement.main)) = true ∧
      ∀ s s' : RoomState, Step s s' → s'.panels = s.panels := by
  refine ⟨by decide, by decide, by decide, by decide, ?_⟩
  intro s s' hstep
  cases hstep with
  | switch w s hw => rfl

/-- Witness for C7's amended statement at a concrete step. -/
theorem panels_registry_spec_witness :
    (setCurrentWorkspace "data" initialState).panels = initialState.panels :=
  panels_registry_spec.2.2.2.2 initialState
    (setCurrentWorkspace "data" initialState)
    (Step.switch "data" initialState (by decide))

/-- C10: the `echo` tool's `execute` always succeeds, returning
`success = true` and `details = "Echo: " ++ text`; being a function of
its input, two runs on the same input yield the same result, and no
input yields a failure. -/
theorem echoExecute_spec (text : String) :
    (echoExecute text).llmResult.success = true ∧
      (echoExecute text).llmResult.details = "Echo: " ++ text := by
  exact ⟨rfl, rfl⟩

/-- Witness for C10 on a concrete input. -/
theorem echoExecute_spec_witness :
    (echoExecute "hello").llmResult.success = true ∧
      (echoExecute "hello").llmResult.details = "Echo: " ++ "hello" :=
  echoExecute_spec "hello"

/-- The loop body's `loadFile` call is the only load event it emits. -/
theorem processFile_filter_load (tname : String → String)
    (lr : String → Option String) (f : String) :
    (processFile tname lr f).filter isLoadEvent
      = [DropEvent.load f (tname f)] := by
  cases h : lr f <;> simp [processFile, h, isLoadEvent]

/-- The loop emits exactly one load event per dropped file, in order. -/
theorem processFiles_filter_load (tname : String → String)
    (lr : String → Option String) (files : List String) :
    (processFiles tname lr files).filter isLoadEvent
      = files.map (fun f => DropEvent.load f (tname f)) := by
  induction files with
  | nil => rfl
  | cons f fs ih =>
      simp [processFiles, List.filter_append, processFile_filter_load, ih]

/-- The loop body never refreshes the schemas. -/
theorem processFile_count_refresh (tname : String → String)
    (lr : String → Option String) (f : String) :
    (processFile tname lr f).count DropEvent.refreshSchemas = 0 := by
  cases h : lr f <;> simp [processFile, h]

/-- The loop never refreshes the schemas. -/
theorem processFiles_count_refresh (tname : String → String)
    (lr : String → Option String) (files : List String) :
    (processFiles tname lr files).count DropEvent.refreshSchemas = 0 := by
  induction files with
  | nil => rfl
  | cons f fs ih =>
      simp [processFiles, List.count_append, processFile_count_refresh, ih]

/-- C3: on any non-empty drop of supported files, the handler's trace
contains exactly one load call per file, in drop order (the loop is
sequential, so each load completes before the next begins), and exactly
one schema refresh, which is the last call of the trace. -/
theorem onDrop_loads_in_order_then_refresh
    (tname : String → String) (lr : String → Option String)
    (files : List String) (hne : files ≠ [])
    (hsupp : ∀ f ∈ files, hasSupportedExtension f = true) :
    (onDrop tname lr files).filter isLoadEvent
        = files.map (fun f => DropEvent.load f (tname f)) ∧
      (onDrop tname lr files).count DropEvent.refreshSchemas = 1 ∧
      (onDrop tname lr files).getLast? = some DropEvent.refreshSchemas := by
  refine ⟨?_, ?_, ?_⟩
  · simp [onDrop, List.filter_append, processFiles_filter_load, isLoadEvent]
  · simp [onDrop, List.count_append, processFiles_count_refresh]
  · simp [onDrop]

/-- Witness for C3 on the concrete drop of two supported files. -/
theorem onDrop_loads_in_order_then_refresh_witness :
    (onDrop (fun s => s) (fun _ => none) ["a.csv", "b.json"]).filter isLoadEvent
        = [DropEvent.load "a.csv" "a.csv", DropEvent.load "b.json" "b.json"] ∧
      (onDrop (fun s => s) (fun _ => none) ["a.csv", "b.json"]).count
          DropEvent.refreshSchemas = 1 ∧
      (onDrop (fun s => s) (fun _ => none) ["a.csv", "b.json"]).getLast?
        = some DropEvent.refreshSchemas := by
  have h := onDrop_loads_in_order_then_refresh (fun s => s) (fun _ => none)
    ["a.csv", "b.json"] (by decide) (by decide)
  exact ⟨by simpa using h.1, h.2.1, h.2.2⟩

/-- The loop's load events count each dropped file once. -/
theorem processFiles_count_load (tname : String → String)
    (lr : String → Option String) (files : List String) (f : String) :
    (processFiles tname lr files).count (DropEvent.load f (tname f))
      = files.count f := by
  have hinj : Function.Injective (fun g => DropEvent.load g (tname g)) := by
    intro a b hab
    simp only [DropEvent.load.injEq] at hab
    exact hab.1
  calc (processFiles tname lr files).count (DropEvent.load f (tname f))
      = ((processFiles tname lr files).filter isLoadEvent).count
          (DropEvent.load f (tname f)) :=
        (List.count_filter (by simp [isLoadEvent])).symm
    _ = (files.map (fun g => DropEvent.load g (tname g))).count
          (DropEvent.load f (tname f)) := by
        rw [processFiles_filter_load]
    _ = files.count f := List.count_map_of_injective _ _ hinj _

/-- The loop body emits exactly one error toast when (and only when) the
load of its file fails. -/
theorem processFile_filter_errorToast (tname : String → String)
    (lr : String → Option String) (g : String) :
    ((processFile tname lr g).filter isErrorToast).length
      = (if (lr g).isSome then 1 else 0) := by
  cases h : lr g <;> simp [processFile, h, isErrorToast]

/-- The loop emits exactly one error toast per failing file. -/
theorem processFiles_filter_errorToast_length (tname : String → String)
    (lr : String → Option String) (files : List String) :
    ((processFiles tname lr files).filter isErrorToast).length
      = (files.filter (fun g => (lr g).isSome)).length := by
  induction files with
  | nil => rfl
  | cons g gs ih =>
      cases h : lr g
      · simp [processFiles, List.filter_append, List.filter_cons, h,
          processFile_filter_errorToast, ih]
      · simp [processFiles, List.filter_append, List.filter_cons, h,
          processFile_filter_errorToast, ih]
        omega

/-- Every dropped file's load event occurs in the loop's trace. -/
theorem load_mem_processFiles (tname : String → String)
    (lr : String → Option String) {files : List String} {g : String}
    (hg : g ∈ files) :
    DropEvent.load g (tname g) ∈ processFiles tname lr files := by
  induction files with
  | nil => cases hg
  | cons a fs ih =>
      rcases List.mem_cons.mp hg with h | h
      · subst h
        cases hlr : lr g <;> simp [processFiles, processFile, hlr]
      · exact List.mem_append_right _ (ih h)

/-- A failing file's error toast, whose description is the caught error
appended to a fixed message, occurs in the loop's trace. -/
theorem errorToast_mem_processFiles (tname : String → String)
    (lr : String → Option String) {files : List String} {f err : String}
    (hf : f ∈ files) (herr : lr f = some err) :
    DropEvent.toast "destructive" "Error"
        ("Error loading file " ++ f ++ ": " ++ err)
      ∈ processFiles tname lr files := by
  induction files with
  | nil => cases hf
  | cons a fs ih =>
      rcases List.mem_cons.mp hf with h | h
      · subst h
        simp [processFiles, processFile, herr]
      · exact List.mem_append_right _ (ih h)

/-- C4: when the load of a dropped file `f` raises error `err`, the
handler emits `f`'s load call exactly once (no retry), surfaces exactly
one error toast per failing file, with `f`'s toast description carrying
the stringified error, still emits every other file's load call, and
still makes the single trailing schema-refresh call. -/
theorem onDrop_error_isolated
    (tname : String → String) (lr : String → Option String)
    (files : List String) (f err : String)
    (hf : f ∈ files) (herr : lr f = some err) (honce : files.count f = 1) :
    (onDrop tname lr files).count (DropEvent.load f (tname f)) = 1 ∧
      DropEvent.toast "destructive" "Error"
          ("Error loading file " ++ f ++ ": " ++ err)
        ∈ onDrop tname lr files ∧
      ((onDrop tname lr files).filter isErrorToast).length
        = (files.filter (fun g => (lr g).isSome)).length ∧
      (∀ g ∈ files, DropEvent.load g (tname g) ∈ onDrop tname lr files) ∧
      (onDrop tname lr files).count DropEvent.refreshSchemas = 1 ∧
      (onDrop tname lr files).getLast? = some DropEvent.refreshSchemas := by
  refine ⟨?_, ?_, ?_, ?_, ?_, ?_⟩
  · simp [onDrop, List.count_append, processFiles_count_load, honce]
  · exact List.mem_append_left _ (errorToast_mem_processFiles tname lr hf herr)
  · simp [onDrop, List.filter_append, processFiles_filter_errorToast_length,
      isErrorToast]
  · intro g hg
    exact List.mem_append_left _ (load_mem_processFiles tname lr hg)
  · simp [onDrop, List.count_append, processFiles_count_refresh]
  · simp [onDrop]

/-- Witness for C4 on a concrete drop where the first file's load fails. -/
theorem onDrop_error_isolated_witness :
    (onDrop (fun s => s)
        (fun g => if g == "bad.csv" then some "boom" else none)
        ["bad.csv", "b.json"]).count (DropEvent.load "bad.csv" "bad.csv") = 1 ∧
      DropEvent.toast "destructive" "Error"
          ("Error loading file " ++ "bad.csv" ++ ": " ++ "boom")
        ∈ onDrop (fun s => s)
            (fun g => if g == "bad.csv" then some "boom" else none)
            ["bad.csv", "b.json"] ∧
      (onDrop (fun s => s)
          (fun g => if g == "bad.csv" then some "boom" else none)
          ["bad.csv", "b.json"]).getLast? = some DropEvent.refreshSchemas := by
  have h := onDrop_error_isolated (fun s => s)
    (fun g => if g == "bad.csv" then some "boom" else none)
    ["bad.csv", "b.json"] "bad.csv" "boom" (by decide) (by decide) (by decide)
  exact ⟨h.1, h.2.1, h.2.2.2.2.2⟩

end SqlroomsTesting
